import Mathlib

/-!
Verification development for `src/uBERTa/base.py` of the uBERTa repository.

The module declares static reference data (a chromosome name tuple and a
chromosome-to-flank-sizes dictionary), several `namedtuple` record schemas
(ColNames, four training "Setup" shapes, Scores), and a `__main__` guard
that unconditionally raises `RuntimeError`.  Everything below is a direct
shallow embedding of those declarations; Python `int` values are embedded
as `Int`, strings as `String`, the dictionary as an association list in
source order, and `namedtuple` as a record of type name, field list and
(right-aligned) default list together with positional construction.
-/

/-- Source line: VALID_CHROM = (*(f'chr\x7bi\x7d' for i in range(23)), 'chrX', 'chrY'). -/
def VALID_CHROM : List String :=
  ((List.range 23).map (fun i => "chr" ++ toString i)) ++ ["chrX", "chrY"]

/-- Source dictionary VALID_CHROM_FLANKS, embedded as an association list in
the source's insertion order; every value is the pair written in the source. -/
def VALID_CHROM_FLANKS : List (String × Int × Int) :=
  [ ("chr1", 10000, 10000)
  , ("chr2", 10000, 10000)
  , ("chr3", 10000, 60000)
  , ("chr4", 10000, 10000)
  , ("chr5", 10000, 60000)
  , ("chr6", 60000, 60000)
  , ("chr7", 10000, 10000)
  , ("chr8", 60000, 60000)
  , ("chr9", 10000, 60000)
  , ("chr10", 10000, 10000)
  , ("chr11", 60000, 10000)
  , ("chr12", 10000, 10000)
  , ("chr13", 16000000, 10000)
  , ("chr14", 16000000, 160000)
  , ("chr15", 17000000, 10000)
  , ("chr16", 10000, 110000)
  , ("chr17", 60000, 10000)
  , ("chr18", 10000, 110000)
  , ("chr19", 60000, 10000)
  , ("chr20", 60000, 110000)
  , ("chr21", 5010000, 10000)
  , ("chr22", 10510000, 10000)
  , ("chrX", 10000, 10000)
  , ("chrY", 10000, 10000) ]

/-- Dictionary lookup VALID_CHROM_FLANKS.get(k): first (only) entry whose key
matches, if any. -/
def flankOf (k : String) : Option (Int × Int) :=
  (VALID_CHROM_FLANKS.find? (fun e => e.1 == k)).map (fun e => e.2)

/-- Embedding of Python's collections.namedtuple factory result: the runtime
type name, the ordered field list, and the defaults, which in Python align
with the RIGHTMOST fields. -/
structure NamedTuple where
  typename : String
  fields : List String
  defaults : List String
  deriving Repr, DecidableEq

/-- Positional construction of a namedtuple instance: succeeds exactly when
the supplied argument count is at most the field count and the missing
rightmost fields are all covered by defaults; the result binds each field,
in order, to its value.  (Python raises TypeError otherwise.) -/
def NamedTuple.make (nt : NamedTuple) (args : List String) :
    Option (List (String × String)) :=
  if args.length ≤ nt.fields.length ∧
      nt.fields.length - args.length ≤ nt.defaults.length then
    some (nt.fields.zip
      (args ++ nt.defaults.drop (nt.defaults.length - (nt.fields.length - args.length))))
  else none

/-- Source list _columns. -/
def _columns : List String :=
  ["chrom", "start", "end", "codon", "strand", "gene_id", "group", "level",
   "analyzed", "positive"]

/-- Source list _defaults. -/
def _defaults : List String :=
  ["Chrom", "StartCodonStart", "StartCodonEnd", "StartCodonFetched",
   "Strand", "GeneIDUnique", "Group", "LevelStartCodonStartFetchedAround2",
   "IsAnalyzed", "IsPositive"]

/-- The 3.7+ branch: ColNames = namedtuple('ColNames', _columns, defaults=_defaults). -/
def ColNames : NamedTuple :=
  { typename := "ColNames", fields := _columns, defaults := _defaults }

/-- The pre-3.7 branch: ColNames = lambda: namedtuple('ColNames', _columns)(*_defaults);
its zero-argument invocation constructs a defaults-free namedtuple with all
default labels passed positionally. -/
def ColNames_pre37_call : Option (List (String × String)) :=
  (NamedTuple.mk "ColNames" _columns []).make _defaults

/-- Source: ModelSetup = namedtuple('Setup', ['Config', 'Model', 'Tokenizer', 'ModelPath']). -/
def ModelSetup : NamedTuple :=
  { typename := "Setup", fields := ["Config", "Model", "Tokenizer", "ModelPath"],
    defaults := [] }

/-- Source: RunSetup = namedtuple('Setup', ['BatchSize', 'Epochs', 'WarmupPerc']). -/
def RunSetup : NamedTuple :=
  { typename := "Setup", fields := ["BatchSize", "Epochs", "WarmupPerc"],
    defaults := [] }

/-- Source: OptSetup = namedtuple('Setup', ['LearningRate', 'Epsilon', 'Betas', 'WeightDecay']). -/
def OptSetup : NamedTuple :=
  { typename := "Setup", fields := ["LearningRate", "Epsilon", "Betas", "WeightDecay"],
    defaults := [] }

/-- Source: StopSetup = namedtuple('Setup', ['Rounds', 'Tolerance']). -/
def StopSetup : NamedTuple :=
  { typename := "Setup", fields := ["Rounds", "Tolerance"], defaults := [] }

/-- Source: Scores = namedtuple('Scores', ['acc', 'roc_auc', 'f1', 'prec', 'rec']). -/
def Scores : NamedTuple :=
  { typename := "Scores", fields := ["acc", "roc_auc", "f1", "prec", "rec"],
    defaults := [] }

/-- The only error the module can raise. -/
inductive PyError where
  | runtimeError
  deriving Repr, DecidableEq

/-- The module's top-level guard: if dunder name equals the entry-point name
the module raises RuntimeError(); otherwise (plain import) it finishes
normally having produced no output. -/
def moduleMain (dunderName : String) : Except PyError Unit :=
  if dunderName == "__main__" then Except.error PyError.runtimeError
  else Except.ok ()

/-- Helper: a namedtuple with no defaults is constructible exactly when one
positional argument per field is supplied. -/
theorem make_isSome_of_no_defaults (nt : NamedTuple) (h : nt.defaults = [])
    (args : List String) :
    (nt.make args).isSome ↔ args.length = nt.fields.length := by
  unfold NamedTuple.make
  split
  · rename_i hc
    simp [h] at hc ⊢
    omega
  · rename_i hc
    simp [h] at hc ⊢
    omega

/-- C1: the flank table has exactly 24 entries, its key sequence is exactly
chr1..chr22, chrX, chrY; chr0 is in the chromosome name set but has no
flank entry. -/
theorem flank_table_has_24_keys_without_chr0 :
    VALID_CHROM_FLANKS.length = 24 ∧
    VALID_CHROM_FLANKS.map Prod.fst =
      ["chr1", "chr2", "chr3", "chr4", "chr5", "chr6", "chr7", "chr8",
       "chr9", "chr10", "chr11", "chr12", "chr13", "chr14", "chr15",
       "chr16", "chr17", "chr18", "chr19", "chr20", "chr21", "chr22",
       "chrX", "chrY"] ∧
    "chr0" ∈ VALID_CHROM ∧
    flankOf "chr0" = none := by decide

/-- C2: the chromosome name set is the ordered 25-element sequence
chr0..chr22, chrX, chrY, each exactly once and nothing else. -/
theorem valid_chrom_is_25_distinct_names :
    VALID_CHROM =
      ["chr0", "chr1", "chr2", "chr3", "chr4", "chr5", "chr6", "chr7",
       "chr8", "chr9", "chr10", "chr11", "chr12", "chr13", "chr14",
       "chr15", "chr16", "chr17", "chr18", "chr19", "chr20", "chr21",
       "chr22", "chrX", "chrY"] ∧
    VALID_CHROM.length = 25 ∧
    VALID_CHROM.Nodup := by decide

/-- C3: sampled flank-table lookups yield exactly the stated pairs. -/
theorem flank_sample_lookups :
    flankOf "chr1" = some (10000, 10000) ∧
    flankOf "chr13" = some (16000000, 10000) ∧
    flankOf "chr21" = some (5010000, 10000) := by decide

/-- C4: the ColNames schema has exactly 10 fields in the stated order and
each field carries its exact default label, so the zero-argument
construction binds every field to its label. -/
theorem colnames_schema_fields_and_defaults :
    ColNames.fields =
      ["chrom", "start", "end", "codon", "strand", "gene_id", "group",
       "level", "analyzed", "positive"] ∧
    ColNames.fields.length = 10 ∧
    ColNames.defaults =
      ["Chrom", "StartCodonStart", "StartCodonEnd", "StartCodonFetched",
       "Strand", "GeneIDUnique", "Group",
       "LevelStartCodonStartFetchedAround2", "IsAnalyzed", "IsPositive"] ∧
    ColNames.make [] = some
      [("chrom", "Chrom"), ("start", "StartCodonStart"),
       ("end", "StartCodonEnd"), ("codon", "StartCodonFetched"),
       ("strand", "Strand"), ("gene_id", "GeneIDUnique"),
       ("group", "Group"), ("level", "LevelStartCodonStartFetchedAround2"),
       ("analyzed", "IsAnalyzed"), ("positive", "IsPositive")] := by decide

/-- C5: running the module as the entry point raises RuntimeError and never
produces a normal result; importing it under any other dunder name raises
nothing. -/
theorem main_raises_import_does_not (name : String) (h : name ≠ "__main__") :
    moduleMain "__main__" = Except.error PyError.runtimeError ∧
    moduleMain name = Except.ok () := by
  refine ⟨rfl, ?_⟩
  simp [moduleMain, h]

/-- Witness for C5 at the module's import name. -/
theorem main_raises_import_does_not_witness :
    moduleMain "__main__" = Except.error PyError.runtimeError ∧
    moduleMain "uBERTa.base" = Except.ok () :=
  main_raises_import_does_not "uBERTa.base" (by decide)

/-- C6: every key of the flank table is a valid chromosome name and every
value is a pair of non-negative integers. -/
theorem flank_entries_valid (k : String) (v : Int × Int)
    (h : (k, v) ∈ VALID_CHROM_FLANKS) :
    k ∈ VALID_CHROM ∧ 0 ≤ v.1 ∧ 0 ≤ v.2 := by
  fin_cases h <;> decide

/-- Witness for C6 at the chr1 entry. -/
theorem flank_entries_valid_witness :
    ("chr1", ((10000 : Int), (10000 : Int))) ∈ VALID_CHROM_FLANKS ∧
    ("chr1" ∈ VALID_CHROM ∧
      0 ≤ ((10000 : Int), (10000 : Int)).1 ∧
      0 ≤ ((10000 : Int), (10000 : Int)).2) :=
  ⟨by decide, flank_entries_valid "chr1" (10000, 10000) (by decide)⟩

/-- C7: the four setup records have exactly the stated ordered fields and no
defaults, so positional construction succeeds exactly when every field
receives a value and fails whenever any field is missing. -/
theorem setup_records_require_all_fields :
    (ModelSetup.fields = ["Config", "Model", "Tokenizer", "ModelPath"] ∧
     RunSetup.fields = ["BatchSize", "Epochs", "WarmupPerc"] ∧
     OptSetup.fields = ["LearningRate", "Epsilon", "Betas", "WeightDecay"] ∧
     StopSetup.fields = ["Rounds", "Tolerance"]) ∧
    (ModelSetup.defaults = [] ∧ RunSetup.defaults = [] ∧
     OptSetup.defaults = [] ∧ StopSetup.defaults = []) ∧
    (∀ args : List String,
      (ModelSetup.make args).isSome ↔ args.length = ModelSetup.fields.length) ∧
    (∀ args : List String,
      (RunSetup.make args).isSome ↔ args.length = RunSetup.fields.length) ∧
    (∀ args : List String,
      (OptSetup.make args).isSome ↔ args.length = OptSetup.fields.length) ∧
    (∀ args : List String,
      (StopSetup.make args).isSome ↔ args.length = StopSetup.fields.length) := by
  refine ⟨by decide, by decide, ?_, ?_, ?_, ?_⟩ <;>
    exact fun args => make_isSome_of_no_defaults _ rfl args

/-- C8: the Scores record has exactly the 5 stated fields in order and no
defaults. -/
theorem scores_schema :
    Scores.fields = ["acc", "roc_auc", "f1", "prec", "rec"] ∧
    Scores.fields.length = 5 ∧
    Scores.defaults = [] := by decide

/-- C9: the pre-3.7 lambda path and the 3.7+ defaults path agree on the
zero-argument invocation: both produce the same record of the 10 field
names bound, in order, to the same default labels. -/
theorem colnames_branches_equivalent :
    ColNames_pre37_call = ColNames.make [] ∧
    ColNames_pre37_call = some (List.zip _columns _defaults) := by decide

/-- C10: all four setup records share the runtime type name Setup, which
therefore cannot distinguish them; only Scores and ColNames carry
distinguishing type names. -/
theorem setup_typenames_collide :
    ModelSetup.typename = "Setup" ∧ RunSetup.typename = "Setup" ∧
    OptSetup.typename = "Setup" ∧ StopSetup.typename = "Setup" ∧
    Scores.typename = "Scores" ∧ ColNames.typename = "ColNames" := by decide
